import Mathlib

/-!
Verification development for the sub2md scraper (`sub2md/Scraper.py`,
`sub2md/Cache.py`, `sub2md/Generator.py`, `sub2md/utils/Config.py`).

The Python code is shallowly embedded: pure helpers become Lean functions,
stateful code becomes explicit state passing over an abstract file-system
record, fallible code returns `Except`.  External collaborators (the network,
`pathlib.Path.resolve`, and the HTML parse capability of BeautifulSoup) are
passed in as function parameters, matching the interface contract under which
the program uses them.  Python strings are modelled as Lean `String`; string
primitives used by the code (`str.strip`, `str.startswith`, `str.split`,
`int(...)`) are re-implemented over `List Char` so that all definitions
compute by kernel reduction.
-/

/-! ## Configuration constants, from `sub2md/utils/Config.py` -/

/-- Embeds `CONTENT['EXCLUDED_KEYWORDS']`. -/
def EXCLUDED_KEYWORDS : List String := ["about", "archive", "podcast"]

/-- Embeds `CONTENT['CONTENT_DIV_CLASSES']`. -/
def CONTENT_DIV_CLASSES : List String := ["body", "post-content"]

/-- Embeds `CONTENT['TITLE_TAG']`. -/
def TITLE_TAG : String := "h1"

/-- Embeds `CONTENT['SUBTITLE_TAG']`. -/
def SUBTITLE_TAG : String := "h2"

/-- Embeds `CONTENT['DATE_TAG']`. -/
def DATE_TAG : String := "time"

/-- Embeds `CONTENT['LIKE_COUNT_CLASS']`. -/
def LIKE_COUNT_CLASS : String := "like-count"

/-- Embeds `CONTENT['PAID_CONTENT_CLASS']`. -/
def PAID_CONTENT_CLASS : String := "paid-content"

/-- Embeds `CONTENT['REMOVE_ELEMENTS']`. -/
def REMOVE_ELEMENTS : List String := ["script", "style", "iframe"]

/-- Embeds `OUTPUT['MARKDOWN_EXTENSION']`. -/
def MARKDOWN_EXTENSION : String := ".md"

/-- Embeds `OUTPUT['HTML_EXTENSION']`. -/
def HTML_EXTENSION : String := ".html"

/-! ## String primitives

Computable models of the Python string operations the scraper uses.
They operate on `String.data` (the character list) so that every claim can
be evaluated on concrete inputs by `decide`/`rfl`.  Python `str.strip` and
`int(...)` treat a slightly larger Unicode whitespace/digit set; the scraper
only ever meets ASCII here, which these models cover. -/

/-- Splits a character list on a separator character.  Models Python
`str.split(sep)` for a one-character separator: `splitOnChar c []` is
`[[]]`, matching `"".split(sep) == ['']`. -/
def splitOnChar (c : Char) : List Char → List (List Char)
  | [] => [[]]
  | x :: xs =>
    let r := splitOnChar c xs
    if x = c then [] :: r
    else
      match r with
      | [] => [[x]]
      | h :: t => (x :: h) :: t

/-- Models Python `url.split('.')` as used on a network location. -/
def strSplitOnDot (s : String) : List String :=
  (splitOnChar '.' s.data).map String.mk

/-- Character-list prefix test (helper for `strStartsWith`). -/
def leadsWith : List Char → List Char → Bool
  | [], _ => true
  | _ :: _, [] => false
  | a :: as, b :: bs => a = b && leadsWith as bs

/-- Models Python `s.startswith(pre)`. -/
def strStartsWith (s pre : String) : Bool := leadsWith pre.data s.data

/-- Whitespace trim on character lists (helper for `strTrim`). -/
def trimChars (l : List Char) : List Char :=
  ((l.dropWhile Char.isWhitespace).reverse.dropWhile Char.isWhitespace).reverse

/-- Models Python `s.strip()` with no argument. -/
def strTrim (s : String) : String := String.mk (trimChars s.data)

/-- True when a character list never has two adjacent underscores
(helper for the `int(...)` model). -/
def noDoubleUnderscore : List Char → Bool
  | '_' :: '_' :: _ => false
  | _ :: rest => noDoubleUnderscore rest
  | [] => true

/-- Digit-group well-formedness of the body of a Python integer literal:
non-empty, all digits or underscores, no leading/trailing underscore and no
doubled underscore (helper for the `int(...)` model). -/
def digitsGroupOk (l : List Char) : Bool :=
  !l.isEmpty
    && l.all (fun c => c.isDigit || c = '_')
    && l.head? ≠ some '_'
    && l.getLast? ≠ some '_'
    && noDoubleUnderscore l

/-- Numeric value of a digit list with its underscores removed
(helper for the `int(...)` model). -/
def digitsValue (l : List Char) : Nat :=
  (l.filter (fun c => c ≠ '_')).foldl (fun acc c => acc * 10 + (c.toNat - '0'.toNat)) 0

/-- Models Python `int(s)` on a decimal string: surrounding whitespace is
tolerated, then an optional sign, then digits with optional single
underscores between digit groups; anything else raises `ValueError`,
modelled as `none`. -/
def pyParseInt (s : String) : Option Int :=
  match trimChars s.data with
  | '+' :: r => if digitsGroupOk r then some (digitsValue r : Int) else none
  | '-' :: r => if digitsGroupOk r then some (-(digitsValue r : Int)) else none
  | r => if digitsGroupOk r then some (digitsValue r : Int) else none

/-- Models Python `str(b)` for a bool (`True` / `False`), as interpolated by
the f-strings in `save_markdown` / `save_html`. -/
def pyBoolStr (b : Bool) : String := if b then "True" else "False"

/-! ## URL handling, from `SubstackScraper._extract_main_part` -/

/-- Drops characters up to and including the first occurrence of the pattern;
`none` when the pattern does not occur (helper for `netlocOf`). -/
def dropAfterSub (pat : List Char) : List Char → Option (List Char)
  | [] => none
  | c :: cs =>
    if leadsWith pat (c :: cs) then some ((c :: cs).drop pat.length)
    else dropAfterSub pat cs

/-- Models `urllib.parse.urlparse(url).netloc`: the text after the first
`://` up to the next `/`, `?` or `#`; empty when the URL has no
scheme-and-authority part. -/
def netlocOf (url : String) : String :=
  match dropAfterSub "://".data url.data with
  | some rest => String.mk (rest.takeWhile (fun c => c ≠ '/' && c ≠ '?' && c ≠ '#'))
  | none => ""

/-- Embeds `SubstackScraper._extract_main_part`: split the netloc on dots and
return the part at index `len(parts) // 2`.  The source's `if not parts`
guard is dead (Python `split` never returns an empty list) and the index is
always in range, so the function is total. -/
def extract_main_part (url : String) : String :=
  let parts := strSplitOnDot (netlocOf url)
  parts.getD (parts.length / 2) ""

/-! ## Error taxonomy, from `sub2md/utils/Exceptions.py`

Only the constructors the embedded code can actually raise are modelled. -/

/-- Exceptions raised by the embedded scraper code. -/
inductive PErr where
  | network (msg : String)
  | content (msg : String)
  | fileSystem (msg : String)
  | validation (msg : String)
deriving DecidableEq

/-- Models Python `str(e)` on an exception: its message. -/
def PErr.message : PErr → String
  | .network m => m
  | .content m => m
  | .fileSystem m => m
  | .validation m => m

/-! ## File-system state

Writes performed by the scraper are modelled explicitly: a list of created
directories and an association list mapping a file path to its current
content (most recent write first). -/

/-- Abstract output file system: directories created and files written. -/
structure FileSys where
  dirs : List String := []
  files : List (String × String) := []
deriving DecidableEq

/-- Models `Path.mkdir(parents=True, exist_ok=True)`. -/
def FileSys.mkdirFS (fs : FileSys) (path : String) : FileSys :=
  { fs with dirs := path :: fs.dirs }

/-- Models `open(path, 'w').write(content)`: overwriting write. -/
def FileSys.writeFileFS (fs : FileSys) (path content : String) : FileSys :=
  { fs with files := (path, content) :: fs.files }

/-- Models reading a file: the most recent write to that path, if any. -/
def FileSys.readFileFS (fs : FileSys) (path : String) : Option String :=
  (fs.files.find? (fun f => f.1 = path)).map (fun f => f.2)

/-! ## Path validation, from `SubstackScraper._validate_path`

`Path.resolve()` is an external operation (absolute-path and symlink
resolution by the OS); it is passed in as a function parameter.  The output
root held by the scraper is itself already resolved
(`Path(output_dir).resolve()` in `__init__`). -/

/-- Embeds `SubstackScraper._validate_path`: resolve the path and require
that its string form starts with the output directory's string form,
raising `ValidationError` otherwise. -/
def validate_path (resolve : String → String) (output_dir : String) (p : String) :
    Except PErr Unit :=
  if strStartsWith (resolve p) output_dir then .ok ()
  else .error (.validation ("Path " ++ resolve p ++ " is outside the output directory"))

/-- Formalised from the spec's words (for comparison with `validate_path`,
which is translated from the source): a resolved path lies lexically inside
the output root when it equals the root or extends it at a path-separator
boundary. -/
def insideRoot (root p : String) : Bool :=
  p = root || strStartsWith p (root ++ "/")

/-! ## Filename sanitization, from `save_markdown` / `save_html` -/

/-- The reserved character class of `re.sub(r'[<>:"/\\|?*]', '_', filename)`. -/
def RESERVED_FILENAME_CHARS : List Char :=
  ['<', '>', ':', '"', '/', '\\', '|', '?', '*']

/-- Embeds `re.sub(r'[<>:"/\\|?*]', '_', s)`: every reserved character is
replaced by an underscore, character by character. -/
def sanitizeFilename (s : String) : String :=
  String.mk (s.data.map (fun c => if RESERVED_FILENAME_CHARS.contains c then '_' else c))

/-- The Markdown filename built in `save_markdown`:
`f"{date}_{title}{'.md'}"` passed through the reserved-character
substitution. -/
def md_filename (date title : String) : String :=
  sanitizeFilename (date ++ "_" ++ title ++ MARKDOWN_EXTENSION)

/-- The HTML filename built in `save_html`. -/
def html_filename (date title : String) : String :=
  sanitizeFilename (date ++ "_" ++ title ++ HTML_EXTENSION)

/-! ## Index merge, from `SubstackScraper.save_essays_data_to_json`

The merge line is
`essays_data = existing_data + [data for data in essays_data if data not in existing_data]`;
Python's `in` compares records by full value equality. -/

/-- Embeds the index-merge expression of `save_essays_data_to_json`. -/
def mergeIndex {α : Type} [DecidableEq α] (existing_data essays_data : List α) : List α :=
  existing_data ++ essays_data.filter (fun data => ¬ data ∈ existing_data)

/-! ## Content cache, from `sub2md/Cache.py`

`Cache._get_cache_key` is `hashlib.md5(url.encode()).hexdigest()` — an
external, deterministic, content-independent derivation from the URL string
(the `hashlib` library is not part of this repository).  The cache code
relies only on the key being a deterministic function of the URL, so the
model uses an injective deterministic stand-in.  The HTML capability
(`BeautifulSoup(text, 'lxml')` on read, `str(soup)` on write) is likewise
external; the cache is therefore parametrised by an arbitrary document type
together with its parse and serialize functions. -/

/-- Models `Cache._get_cache_key`: a deterministic key derived from the URL
alone. -/
def cacheKey (url : String) : String := url

/-- Embeds `Cache._get_cache_path`: `<cacheDir>/<key>.cache`. -/
def cachePath (cache_dir key : String) : String :=
  cache_dir ++ "/" ++ key ++ ".cache"

/-- Cache file store: path to file content, most recent write first. -/
abbrev CacheFiles : Type := List (String × String)

/-- Embeds `Cache.save_cached_soup`: serialize the document
(`str(soup)`) and write it to the key's path, overwriting. -/
def save_cached_soup {Doc : Type} (serialize : Doc → String) (cache_dir : String)
    (cfs : CacheFiles) (url : String) (soup : Doc) : CacheFiles :=
  (cachePath cache_dir (cacheKey url), serialize soup) :: cfs

/-- Embeds `Cache.get_cached_soup`: if a file exists at the key's path, read
it and parse it back into a document; `none` otherwise. -/
def get_cached_soup {Doc : Type} (parse : String → Doc) (cache_dir : String)
    (cfs : CacheFiles) (url : String) : Option Doc :=
  ((cfs.find? (fun f => f.1 = cachePath cache_dir (cacheKey url))).map (fun f => f.2)).map parse

/-! ## Parsed HTML documents

The scraper consumes the external HTML capability through: find the first
element by tag and optionally class, collect an element's text, serialize an
element back to HTML, and remove elements.  A parsed document is modelled as
a tree of element and text nodes; `find` follows BeautifulSoup's semantics
(first match in document order among the node's descendants; a `class_`
filter matches when the sought class is one of the element's classes). -/

/-- A parsed HTML node: an element with tag, class list and children, or a
text node. -/
inductive Node where
  | text (s : String)
  | elem (tag : String) (classes : List String) (children : List Node)

mutual
/-- Models `str(tag)`: serialize an element back to HTML. -/
def Node.serialize : Node → String
  | .text s => s
  | .elem t cls ch =>
      "<" ++ t
        ++ (if cls.isEmpty then "" else " class=\"" ++ String.intercalate " " cls ++ "\"")
        ++ ">" ++ Node.serializeList ch ++ "</" ++ t ++ ">"
/-- Serialization of a child list (helper for `Node.serialize`). -/
def Node.serializeList : List Node → String
  | [] => ""
  | n :: ns => Node.serialize n ++ Node.serializeList ns
end

mutual
/-- Models `tag.text`: concatenation of all descendant strings. -/
def Node.textContent : Node → String
  | .text s => s
  | .elem _ _ ch => Node.textList ch
/-- Text of a child list (helper for `Node.textContent`). -/
def Node.textList : List Node → String
  | [] => ""
  | n :: ns => Node.textContent n ++ Node.textList ns
end

mutual
/-- Models `tag.find(...)`: the first node in document order among the
strict descendants of the given node satisfying the predicate. -/
def Node.findDesc (p : Node → Bool) : Node → Option Node
  | .text _ => none
  | .elem _ _ ch => Node.findFirst p ch
/-- First match within a forest, in document order (helper for
`Node.findDesc`). -/
def Node.findFirst (p : Node → Bool) : List Node → Option Node
  | [] => none
  | n :: ns =>
    match (if p n then some n else Node.findDesc p n) with
    | some m => some m
    | none => Node.findFirst p ns
end

/-- Matches `soup.find(tagName)`: element with the given tag. -/
def Node.isTag (t : String) : Node → Bool
  | .elem tag _ _ => tag = t
  | .text _ => false

/-- Matches `soup.find(tagName, class_=cl)`: element with the given tag
whose class list contains `cl`. -/
def Node.isTagClass (t cl : String) : Node → Bool
  | .elem tag cls _ => tag = t && cls.contains cl
  | .text _ => false

/-- True for elements whose tag is in `REMOVE_ELEMENTS` (script, style,
iframe): the nodes `_clean_content` decomposes in its first phase. -/
def nodeIsRemovable : Node → Bool
  | .text _ => false
  | .elem t _ _ => REMOVE_ELEMENTS.contains t

mutual
/-- Embeds the first phase of `SubstackScraper._clean_content`: decompose
every descendant element whose tag is in `REMOVE_ELEMENTS`
(script/style/iframe), keeping the root itself. -/
def removeElemsNode : Node → Node
  | .text s => .text s
  | .elem t cls ch => .elem t cls (removeElemsList ch)
/-- Removal over a child list (helper for `removeElemsNode`). -/
def removeElemsList : List Node → List Node
  | [] => []
  | n :: ns =>
    if nodeIsRemovable n then removeElemsList ns
    else removeElemsNode n :: removeElemsList ns
end

/-- True for `p` elements whose stripped text is empty: the nodes
`_clean_content` decomposes in its second phase. -/
def nodeIsEmptyP : Node → Bool
  | .text _ => false
  | .elem t _ ch => t = "p" && strTrim (Node.textList ch) = ""

mutual
/-- Embeds the second phase of `SubstackScraper._clean_content`: decompose
every descendant `p` element whose stripped text is empty, judging each `p`
in document order (a `p` is judged on its subtree before the subtree is
cleaned, matching the `find_all('p')` traversal order). -/
def removeEmptyPNode : Node → Node
  | .text s => .text s
  | .elem t cls ch => .elem t cls (removeEmptyPList ch)
/-- Removal over a child list (helper for `removeEmptyPNode`). -/
def removeEmptyPList : List Node → List Node
  | [] => []
  | n :: ns =>
    if nodeIsEmptyP n then removeEmptyPList ns
    else removeEmptyPNode n :: removeEmptyPList ns
end

/-- Embeds `SubstackScraper._clean_content`: remove the configured elements,
then remove empty paragraphs. -/
def clean_content (content_div : Node) : Node :=
  removeEmptyPNode (removeElemsNode content_div)

/-! ## Post extraction, from `SubstackScraper.extract_post_data` -/

/-- The extracted record (`post_data` dict): the canonical PostRecord of the
data model.  `file_link` / `html_link` are added later by the save steps. -/
structure PostData where
  title : String
  subtitle : String
  date : String
  like_count : Int
  is_paid : Bool
  content : String
  file_link : Option String := none
  html_link : Option String := none
deriving DecidableEq

/-- Embeds `SubstackScraper._find_content_div`: try each configured content
class in order, searching the whole document for a `div` of that class;
first match wins; raise `ContentError` when none matches. -/
def find_content_div (soup : Node) : Except PErr Node :=
  match CONTENT_DIV_CLASSES.findSome? (fun cl => soup.findDesc (Node.isTagClass "div" cl)) with
  | some d => .ok d
  | none => .error (.content "Could not find main content div")

/-- Embeds `SubstackScraper._extract_title`: first `h1`, stripped;
default `"Untitled"`. -/
def extract_title (soup : Node) : String :=
  match soup.findDesc (Node.isTag TITLE_TAG) with
  | some el => strTrim el.textContent
  | none => "Untitled"

/-- Embeds `SubstackScraper._extract_subtitle`: first `h2` inside the
content div, stripped; default `""`. -/
def extract_subtitle (content_div : Node) : String :=
  match content_div.findDesc (Node.isTag SUBTITLE_TAG) with
  | some el => strTrim el.textContent
  | none => ""

/-- Embeds `SubstackScraper._extract_date`: first `time` element anywhere,
stripped; default `""`. -/
def extract_date (soup : Node) : String :=
  match soup.findDesc (Node.isTag DATE_TAG) with
  | some el => strTrim el.textContent
  | none => ""

/-- Embeds `SubstackScraper._extract_like_count`: first
`span.like-count`; its stripped text parsed with `int(...)`; a missing
element or a `ValueError` yields `0`. -/
def extract_like_count (soup : Node) : Int :=
  match soup.findDesc (Node.isTagClass "span" LIKE_COUNT_CLASS) with
  | some el => (pyParseInt (strTrim el.textContent)).getD 0
  | none => 0

/-- Embeds `SubstackScraper._check_if_paid`: presence of a
`div.paid-content` element. -/
def check_if_paid (soup : Node) : Bool :=
  (soup.findDesc (Node.isTagClass "div" PAID_CONTENT_CLASS)).isSome

/-- Embeds `SubstackScraper.extract_post_data`: locate the content div
(the one fatal step — its `ContentError` is caught and re-raised with the
`"Failed to extract post data: "` wrapper), run the best-effort
sub-extractions, clean the content div and serialize it. -/
def extract_post_data (soup : Node) : Except PErr PostData :=
  match find_content_div soup with
  | .error e => .error (.content ("Failed to extract post data: " ++ e.message))
  | .ok content_div =>
    .ok { title := extract_title soup
          subtitle := extract_subtitle content_div
          date := extract_date soup
          like_count := extract_like_count soup
          is_paid := check_if_paid soup
          content := (clean_content content_div).serialize }

/-! ## Persistence writers, from `save_markdown` / `save_html`

Both writers: create the author subdirectory (before validating it — the
`mkdir` precedes `_validate_path` in the source), validate it against the
output root, build the sanitized filename, write the file, and record the
output-root-relative link on the record.  Their `try`/`except` catches every
exception — including the `ValidationError` from `_validate_path` — and
re-raises it as `FileSystemError`. -/

/-- The markdown author directory `md_save_dir / writer_name`
(with `md_save_dir = output_dir / "substack_md_files"`). -/
def md_author_dir (output_dir writer_name : String) : String :=
  output_dir ++ "/substack_md_files/" ++ writer_name

/-- The HTML author directory `html_save_dir / writer_name`. -/
def html_author_dir (output_dir writer_name : String) : String :=
  output_dir ++ "/substack_html_pages/" ++ writer_name

/-- The Markdown file body written by `save_markdown`. -/
def markdownBody (pd : PostData) : String :=
  "# " ++ pd.title ++ "\n\n"
    ++ (if pd.subtitle ≠ "" then "## " ++ pd.subtitle ++ "\n\n" else "")
    ++ "Date: " ++ pd.date ++ "\n"
    ++ "Likes: " ++ toString pd.like_count ++ "\n"
    ++ "Paid: " ++ pyBoolStr pd.is_paid ++ "\n\n"
    ++ pd.content

/-- The HTML file body written by `save_html`. -/
def htmlBody (pd : PostData) : String :=
  "<!DOCTYPE html>\n<html>\n<head>\n"
    ++ "<title>" ++ pd.title ++ "</title>\n"
    ++ "</head>\n<body>\n"
    ++ "<h1>" ++ pd.title ++ "</h1>\n"
    ++ (if pd.subtitle ≠ "" then "<h2>" ++ pd.subtitle ++ "</h2>\n" else "")
    ++ "<p>Date: " ++ pd.date ++ "</p>\n"
    ++ "<p>Likes: " ++ toString pd.like_count ++ "</p>\n"
    ++ "<p>Paid: " ++ pyBoolStr pd.is_paid ++ "</p>\n"
    ++ pd.content
    ++ "\n</body>\n</html>"

/-- Embeds `SubstackScraper.save_markdown`.  Returns the file system after
the call (reflecting all writes performed before any exception) together
with either the record updated with `file_link` or the raised error. -/
def save_markdown (resolve : String → String) (output_dir writer_name : String)
    (pd : PostData) (fs : FileSys) : FileSys × Except PErr PostData :=
  let author_dir := md_author_dir output_dir writer_name
  let fs1 := fs.mkdirFS author_dir
  match validate_path resolve output_dir author_dir with
  | .error e => (fs1, .error (.fileSystem ("Failed to save Markdown: " ++ e.message)))
  | .ok _ =>
    let filename := md_filename pd.date pd.title
    let filepath := author_dir ++ "/" ++ filename
    let fs2 := fs1.writeFileFS filepath (markdownBody pd)
    (fs2, .ok { pd with file_link := some ("substack_md_files/" ++ writer_name ++ "/" ++ filename) })

/-- Embeds `SubstackScraper.save_html`, analogously to `save_markdown`. -/
def save_html (resolve : String → String) (output_dir writer_name : String)
    (pd : PostData) (fs : FileSys) : FileSys × Except PErr PostData :=
  let author_dir := html_author_dir output_dir writer_name
  let fs1 := fs.mkdirFS author_dir
  match validate_path resolve output_dir author_dir with
  | .error e => (fs1, .error (.fileSystem ("Failed to save HTML: " ++ e.message)))
  | .ok _ =>
    let filename := html_filename pd.date pd.title
    let filepath := author_dir ++ "/" ++ filename
    let fs2 := fs1.writeFileFS filepath (htmlBody pd)
    (fs2, .ok { pd with html_link := some ("substack_html_pages/" ++ writer_name ++ "/" ++ filename) })

/-! ## Index persistence, from `save_essays_data_to_json`

The JSON data file is modelled by its parsed content: an association from
the file path to the record list it serializes.  A missing file reads as an
empty index; the corrupted-file branch of the source likewise degrades to an
empty index.  The `try`/`except` wraps every raised error — including the
`ValidationError` — as `FileSystemError`. -/

/-- Parsed contents of the JSON data files, by path. -/
abbrev DataFiles : Type := List (String × List PostData)

/-- Reads the parsed JSON array at a path (helper for
`save_essays_data_to_json`). -/
def readData (dfs : DataFiles) (path : String) : Option (List PostData) :=
  (dfs.find? (fun f => f.1 = path)).map (fun f => f.2)

/-- The index path `data_dir / f'{writer_name}.json'`. -/
def json_data_path (output_dir writer_name : String) : String :=
  output_dir ++ "/data/" ++ writer_name ++ ".json"

/-- Embeds `SubstackScraper.save_essays_data_to_json`: validate the index
path, read the existing array (missing or corrupted file: empty), merge with
`mergeIndex`, and write the result back. -/
def save_essays_data_to_json (resolve : String → String) (output_dir writer_name : String)
    (dfs : DataFiles) (essays_data : List PostData) : Except PErr DataFiles :=
  let json_path := json_data_path output_dir writer_name
  match validate_path resolve output_dir json_path with
  | .error e => .error (.fileSystem ("Error saving essays data: " ++ e.message))
  | .ok _ =>
    let existing_data := (readData dfs json_path).getD []
    .ok ((json_path, mergeIndex existing_data essays_data) :: dfs)

/-! ## The fetch pipeline, from `_process_single_url` / `scrape_posts`

External collaborators are bundled into an environment: the HTML parse
capability (`BeautifulSoup(text, parser)` — used with `'html.parser'` on
fetched bodies and `'lxml'` on cache reads, both instances of the same
abstract capability), `Path.resolve`, and the network (`session.get`,
returning an HTTP status and a body).  The run state carries the
`processed_urls` set, the cache files, the output file system, the parsed
data files, and — as an observation of the model — the log of network
fetches actually issued.

`scrape_posts` launches every URL as a task and collects results with
`asyncio.as_completed`; completion order is modelled as list order.  When a
collected task raises, the `for` loop re-raises: URLs whose tasks would
complete later are modelled as not completing (the run is torn down), and
the index save is never reached. -/

/-- External collaborators of the scraper. -/
structure ScrapeEnv where
  parseHTML : String → Node
  resolve : String → String
  fetch : String → Nat × String
  output_dir : String
  writer_name : String
  output_mode : String

/-- Mutable run state of the scraper. -/
structure PipeState where
  processed_urls : List String := []
  cacheFiles : CacheFiles := []
  fs : FileSys := {}
  dataFiles : DataFiles := []
  fetchLog : List String := []

/-- The per-record save steps of `_process_single_url`: Markdown when the
output mode is in `['both', 'md']`, then HTML when it is in
`['both', 'html']`; an error from either is re-raised. -/
def save_post_files (env : ScrapeEnv) (st : PipeState) (pd : PostData) :
    PipeState × Except PErr PostData :=
  let afterMd : PipeState × Except PErr PostData :=
    if ["both", "md"].contains env.output_mode then
      match save_markdown env.resolve env.output_dir env.writer_name pd st.fs with
      | (fs', r) => ({ st with fs := fs' }, r)
    else (st, .ok pd)
  match afterMd with
  | (st', .error e) => (st', .error e)
  | (st', .ok pd') =>
    if ["both", "html"].contains env.output_mode then
      match save_html env.resolve env.output_dir env.writer_name pd' st'.fs with
      | (fs', r) => ({ st' with fs := fs' }, r)
    else (st', .ok pd')

/-- The extract-and-persist tail of `_process_single_url`, shared by the
cache-hit and fetch paths. -/
def process_soup (env : ScrapeEnv) (st : PipeState) (soup : Node) :
    PipeState × Except PErr (Option PostData) :=
  match extract_post_data soup with
  | .error e => (st, .error e)
  | .ok pd =>
    match save_post_files env st pd with
    | (st', .error e) => (st', .error e)
    | (st', .ok pd') => (st', .ok (some pd'))

/-- Embeds `SubstackScraper._process_single_url`: skip an already-processed
URL (the `processed_urls` set is initialised empty in `__init__` and never
added to anywhere in the source); try the cache; on a miss issue the HTTP
GET, raising `NetworkError` on a non-200 status — that error is caught by
the `except NetworkError` handler and degrades to `None`; on 200 parse the
body, store it to the cache, then extract and persist.  Any non-network
error is logged and re-raised. -/
def process_single_url (env : ScrapeEnv) (st : PipeState) (url : String) :
    PipeState × Except PErr (Option PostData) :=
  if st.processed_urls.contains url then (st, .ok none)
  else
    let cache_dir := env.output_dir ++ "/cache"
    match get_cached_soup env.parseHTML cache_dir st.cacheFiles url with
    | some soup => process_soup env st soup
    | none =>
      let st1 := { st with fetchLog := st.fetchLog ++ [url] }
      let (status, body) := env.fetch url
      if status ≠ 200 then (st1, .ok none)
      else
        let soup := env.parseHTML body
        let st2 := { st1 with
          cacheFiles := save_cached_soup Node.serialize cache_dir st1.cacheFiles url soup }
        process_soup env st2 soup

/-- The result-collection loop of `scrape_posts`: collect each completed
task's record, skipping `None` results; a raised exception propagates out of
the loop. -/
def scrape_posts_loop (env : ScrapeEnv) :
    PipeState → List String → List PostData → PipeState × Except PErr (List PostData)
  | st, [], acc => (st, .ok acc)
  | st, url :: rest, acc =>
    match process_single_url env st url with
    | (st', .ok (some pd)) => scrape_posts_loop env st' rest (acc ++ [pd])
    | (st', .ok none) => scrape_posts_loop env st' rest acc
    | (st', .error e) => (st', .error e)

/-- Embeds `SubstackScraper.scrape_posts` over an already-discovered URL
list: run every URL through `_process_single_url`, collect the records, and
on normal completion merge them into the JSON index with
`save_essays_data_to_json`.  (The trailing `Generator.generate` call and the
session teardown touch nothing modelled here.) -/
def scrape_posts (env : ScrapeEnv) (st : PipeState) (urls : List String) :
    PipeState × Except PErr (List PostData) :=
  match scrape_posts_loop env st urls [] with
  | (st', .ok essays_data) =>
    match save_essays_data_to_json env.resolve env.output_dir env.writer_name
        st'.dataFiles essays_data with
    | .ok dfs' => ({ st' with dataFiles := dfs' }, .ok essays_data)
    | .error e => (st', .error e)
  | (st', .error e) => (st', .error e)

/-! ## Listing generation, from `ContentGenerator.load_posts`
(`sub2md/Generator.py`)

The JSON index is modelled as parsed data: a list of JSON objects, each an
association list from string keys to scalar JSON values (the values the
scraper writes are strings, numbers, booleans and null).  `load_posts` keeps
exactly the entries carrying all of `title`, `date` and `like_count`
(`if all(key in post for key in [...])`), builds a `Post` from each — the
subscript accesses `post['title']` etc. would raise `KeyError` on a missing
key, modelled by `Except` — and finally sorts by `date` descending
(`self.posts.sort(key=lambda x: x.date, reverse=True)`; the sort key is a
string in every record this system writes, and Python's stable sort
descending is modelled by a stable insertion sort on that string key). -/

/-- A scalar JSON value. -/
inductive JVal where
  | str (s : String)
  | num (n : Int)
  | bool (b : Bool)
  | null
deriving DecidableEq

/-- A JSON object: keys with values. -/
abbrev JObj : Type := List (String × JVal)

/-- Models `key in post` / `post.get(key)`: first binding of the key. -/
def jlookup (post : JObj) (k : String) : Option JVal :=
  (post.find? (fun f => f.1 = k)).map (fun f => f.2)

/-- Embeds the `Post` dataclass of `sub2md/Generator.py` as loaded from
JSON (field values are whatever the JSON holds). -/
structure GPost where
  title : JVal
  date : JVal
  like_count : JVal
  subtitle : JVal
  is_paid : JVal
  file_link : Option JVal
  html_link : Option JVal
deriving DecidableEq

/-- The three keys required by the `load_posts` list-comprehension filter. -/
def REQUIRED_POST_KEYS : List String := ["title", "date", "like_count"]

/-- Embeds `all(key in post for key in ['title', 'date', 'like_count'])`. -/
def hasRequiredKeys (post : JObj) : Bool :=
  REQUIRED_POST_KEYS.all (fun k => (jlookup post k).isSome)

/-- Models `post[key]`: `KeyError` when absent. -/
def jgetE (post : JObj) (k : String) : Except String JVal :=
  match jlookup post k with
  | some v => .ok v
  | none => .error ("KeyError: " ++ k)

/-- The `Post(...)` construction of `load_posts`, with the fallible
subscript accesses made explicit. -/
def mkPostE (post : JObj) : Except String GPost := do
  let t ← jgetE post "title"
  let d ← jgetE post "date"
  let lc ← jgetE post "like_count"
  .ok { title := t, date := d, like_count := lc
        subtitle := (jlookup post "subtitle").getD (.str "")
        is_paid := (jlookup post "is_paid").getD (.bool false)
        file_link := jlookup post "file_link"
        html_link := jlookup post "html_link" }

/-- Total counterpart of `mkPostE`, defined for entries that carry the
required keys (missing keys default to `null`, a case that cannot occur
after the filter). -/
def mkPost (post : JObj) : GPost :=
  { title := (jlookup post "title").getD .null
    date := (jlookup post "date").getD .null
    like_count := (jlookup post "like_count").getD .null
    subtitle := (jlookup post "subtitle").getD (.str "")
    is_paid := (jlookup post "is_paid").getD (.bool false)
    file_link := jlookup post "file_link"
    html_link := jlookup post "html_link" }

/-- Lexicographic-by-code-point comparison of character lists: models
Python string `<=` on the sort keys. -/
def charListLe : List Char → List Char → Bool
  | [], _ => true
  | _ :: _, [] => false
  | a :: as, b :: bs => a < b || (a = b && charListLe as bs)

/-- The sort key `lambda x: x.date` (a string in every record this system
writes). -/
def sortKeyDate (p : GPost) : String :=
  match p.date with
  | .str s => s
  | _ => ""

/-- Models `posts.sort(key=lambda x: x.date, reverse=True)`: stable sort,
descending by date string. -/
def sortPostsByDateDesc (l : List GPost) : List GPost :=
  l.insertionSort (fun a b => charListLe (sortKeyDate b).data (sortKeyDate a).data = true)

/-- The `Post` construction loop of `load_posts` over the filtered entries,
sequenced left to right with fallible subscript access. -/
def loadPostsAux : List JObj → Except String (List GPost)
  | [] => .ok []
  | p :: ps =>
    match mkPostE p, loadPostsAux ps with
    | .ok g, .ok gs => .ok (g :: gs)
    | .error e, _ => .error e
    | .ok _, .error e => .error e

/-- Embeds `ContentGenerator.load_posts` on the parsed JSON array: filter to
entries with the required keys, build a `Post` from each, sort by date
descending. -/
def load_posts (data : List JObj) : Except String (List GPost) :=
  match loadPostsAux (data.filter hasRequiredKeys) with
  | .ok posts => .ok (sortPostsByDateDesc posts)
  | .error e => .error e

/-! ## Concrete fixtures

Small concrete documents and an environment instance used to evaluate the
embedded pipeline on explicit inputs. -/

/-- A fixture page with a title and a content div (a record-producing
page). -/
def goodDoc : Node :=
  .elem "html" [] [.elem "body" [] [
    .elem "h1" [] [.text "Hello"],
    .elem "div" ["body"] [.elem "p" [] [.text "World"]]]]

/-- A fixture page with no content div: extraction raises `ContentError`. -/
def badDoc : Node := .elem "html" [] []

/-- A concrete environment: the parser maps the fetched body `"bad"` to
`badDoc` and everything else to `goodDoc`; the OS resolves paths to
themselves; the network serves 200 for `"ugood"`/`"ubad"` and 500
otherwise. -/
def exEnv : ScrapeEnv :=
  { parseHTML := fun s => if s = "bad" then badDoc else goodDoc
    resolve := id
    fetch := fun u =>
      if u = "ugood" then (200, "good")
      else if u = "ubad" then (200, "bad")
      else (500, "")
    output_dir := "/out"
    writer_name := "w"
    output_mode := "both" }

/-- The record extracted from `goodDoc`, before the save steps. -/
def exExtracted : PostData :=
  { title := "Hello", subtitle := "", date := "", like_count := 0, is_paid := false
    content := "<div class=\"body\"><p>World</p></div>" }

/-- The record produced for `goodDoc` by the full pipeline under `exEnv`
(both save steps have recorded their links). -/
def exRecord : PostData :=
  { exExtracted with
    file_link := some "substack_md_files/w/_Hello.md"
    html_link := some "substack_html_pages/w/_Hello.html" }

/-- The run state after processing `"ubad"` under `exEnv`: the fetch was
issued and the page cached, then extraction raised. -/
def exBadState : PipeState :=
  { processed_urls := []
    cacheFiles := [("/out/cache/ubad.cache", "<html></html>")]
    fs := {}
    dataFiles := []
    fetchLog := ["ubad"] }

/-- A fixture document whose like-count element holds the text `"-5"`. -/
def c8Doc : Node :=
  .elem "html" [] [.elem "body" [] [
    .elem "div" ["body"] [],
    .elem "span" ["like-count"] [.text "-5"]]]

/-- A concrete index record for merge experiments. -/
def c4Rec : PostData :=
  { title := "t", subtitle := "", date := "d", like_count := 1, is_paid := false
    content := "c" }

-- Decidable equality for `Except`, used to evaluate pipeline results on
-- concrete inputs.
deriving instance DecidableEq for Except

/-! ## Theorems -/

/-- Helper: membership in the merged index. -/
lemma mem_mergeIndex {α : Type} [DecidableEq α] {I L : List α} {d : α} :
    d ∈ mergeIndex I L ↔ d ∈ I ∨ d ∈ L := by
  simp only [mergeIndex, List.mem_append, List.mem_filter, decide_eq_true_eq]
  tauto

/-- Helper: re-merging the same list is the identity. -/
lemma mergeIndex_idem {α : Type} [DecidableEq α] (I L : List α) :
    mergeIndex (mergeIndex I L) L = mergeIndex I L := by
  have h : L.filter (fun d => decide (¬ d ∈ mergeIndex I L)) = [] := by
    rw [List.filter_eq_nil_iff]
    intro a ha
    simp only [decide_eq_true_eq, not_not]
    exact mem_mergeIndex.mpr (Or.inr ha)
  show mergeIndex I L ++ _ = mergeIndex I L
  rw [h, List.append_nil]

/-- Helper: the merge of duplicate-free lists is duplicate-free. -/
lemma mergeIndex_nodup {α : Type} [DecidableEq α] {I L : List α}
    (hI : I.Nodup) (hL : L.Nodup) : (mergeIndex I L).Nodup := by
  refine hI.append (hL.filter _) ?_
  intro a haI haF
  rw [List.mem_filter] at haF
  simp only [decide_eq_true_eq] at haF
  exact haF.2 haI

/-- C2: writer-name extraction.  The code maps a URL to the middle segment
of the dot-split host, so `https://example.substack.com` resolves to
`"substack"` — not `"example"` as the spec's scenario D and the repository's
own test (`tests/test_scraper.py::test_extract_main_part`) assert.  Only
`https://blog.example.com` resolves to `"example"`; the two-segment host
`https://example.com`, also asserted to give `"example"` by the test,
resolves to `"com"`.  This theorem evaluates the embedded code at the three
tested inputs. -/
theorem c2_extract_main_part_eval :
    extract_main_part "https://example.substack.com" = "substack" ∧
    extract_main_part "https://blog.example.com" = "example" ∧
    extract_main_part "https://example.com" = "com" := by
  refine ⟨by decide, by decide, by decide⟩

/-- C3: de-duplication of already-processed URLs.  The `processed_urls` set
is initialised in `__init__` and consulted in `_process_single_url`, but no
code path ever adds to it, so the guard is dead: running the pipeline over
the same URL twice extracts and persists the post twice and yields two
records (the second pass reads the page from the cache rather than the
network, which is why the fetch log holds the URL once).  This theorem
evaluates the embedded pipeline at a duplicate-URL input. -/
theorem c3_duplicate_url_processed_twice :
    (scrape_posts exEnv {} ["ugood", "ugood"]).2 = .ok [exRecord, exRecord] ∧
    (scrape_posts exEnv {} ["ugood", "ugood"]).1.fetchLog = ["ugood"] := by
  refine ⟨by decide, by decide⟩

/-- C4 counterexample: the merge only filters incoming records against the
*existing* index, so an incoming list that itself contains a duplicate
produces an index in which that record appears twice — merging the same
list again leaves both copies, falsifying "each record appears only
once". -/
theorem c4_counterexample :
    mergeIndex (mergeIndex ([] : List PostData) [c4Rec, c4Rec]) [c4Rec, c4Rec]
        = [c4Rec, c4Rec] ∧
    ¬ (mergeIndex (mergeIndex ([] : List PostData) [c4Rec, c4Rec]) [c4Rec, c4Rec]).Nodup := by
  refine ⟨by decide, by decide⟩

/-- C4 (amended): the index merge is idempotent (re-merging the same list
is the identity), append-only (the existing index is a prefix of the
result, and a record is appended only when not already present, so the
result's members are exactly the union), and — provided the existing index
and the incoming record list are each duplicate-free — every record appears
only once. -/
theorem c4_merge_idempotent_append_only {α : Type} [DecidableEq α] (I L : List α)
    (hI : I.Nodup) (hL : L.Nodup) :
    mergeIndex (mergeIndex I L) L = mergeIndex I L ∧
    (mergeIndex (mergeIndex I L) L).Nodup ∧
    (∃ t, mergeIndex (mergeIndex I L) L = I ++ t) ∧
    (∀ d, d ∈ mergeIndex (mergeIndex I L) L ↔ d ∈ I ∨ d ∈ L) := by
  rw [mergeIndex_idem]
  refine ⟨rfl, mergeIndex_nodup hI hL, ⟨_, rfl⟩, fun d => mem_mergeIndex⟩

/-- C4 witness: the amended theorem applied at a concrete index and record
list. -/
theorem c4_merge_witness :
    mergeIndex (mergeIndex ([] : List PostData) [c4Rec]) [c4Rec]
        = mergeIndex ([] : List PostData) [c4Rec] ∧
    (mergeIndex (mergeIndex ([] : List PostData) [c4Rec]) [c4Rec]).Nodup ∧
    (∃ t, mergeIndex (mergeIndex ([] : List PostData) [c4Rec]) [c4Rec] = [] ++ t) ∧
    (∀ d, d ∈ mergeIndex (mergeIndex ([] : List PostData) [c4Rec]) [c4Rec]
        ↔ d ∈ ([] : List PostData) ∨ d ∈ [c4Rec]) :=
  c4_merge_idempotent_append_only [] [c4Rec] (by decide) (by decide)

/-- C6 counterexample: `_validate_path` accepts any resolved path whose
string form starts with the output root's string form, so a sibling path
such as `/out2/f` under root `/out` passes validation even though it lies
outside the root — no `ValidationError` is raised for it and a write to it
would proceed. -/
theorem c6_counterexample :
    validate_path id "/out" "/out2/f" = .ok () ∧
    insideRoot "/out" "/out2/f" = false := by
  refine ⟨rfl, by decide⟩

/-- C6 (amended): a write target passes `_validate_path` exactly when its
resolved path has the output root as a *string prefix* (which admits
escaping sibling paths such as `/out2` under `/out`); when the author
directory fails that prefix test, `save_markdown` / `save_html` raise — the
`ValidationError` surfaces wrapped as `FileSystemError` by their blanket
`except` — and the post file is not written, although the author-directory
creation (`mkdir` precedes the validation) has already happened. -/
theorem c6_prefix_validation (resolve : String → String) (root w p : String)
    (pd : PostData) (fs : FileSys) :
    (validate_path resolve root p = .ok () ↔ strStartsWith (resolve p) root = true) ∧
    ((save_markdown resolve root w pd fs).1.dirs = md_author_dir root w :: fs.dirs) ∧
    (strStartsWith (resolve (md_author_dir root w)) root = false →
      (∃ msg, (save_markdown resolve root w pd fs).2 = .error (.fileSystem msg)) ∧
        (save_markdown resolve root w pd fs).1.files = fs.files) ∧
    (strStartsWith (resolve (html_author_dir root w)) root = false →
      (∃ msg, (save_html resolve root w pd fs).2 = .error (.fileSystem msg)) ∧
        (save_html resolve root w pd fs).1.files = fs.files) := by
  refine ⟨?_, ?_, ?_, ?_⟩
  · unfold validate_path
    split
    · simp_all
    · simp_all
  · simp only [save_markdown, validate_path]
    split <;> rfl
  · intro h
    simp only [save_markdown, validate_path, h]
    exact ⟨⟨_, rfl⟩, rfl⟩
  · intro h
    simp only [save_html, validate_path, h]
    exact ⟨⟨_, rfl⟩, rfl⟩

/-- C6 witness: the amended theorem applied with a resolver that sends the
author directories outside the root. -/
theorem c6_prefix_validation_witness :
    (∃ msg, (save_markdown (fun _ => "/elsewhere") "/out" "w" exExtracted {}).2
        = .error (.fileSystem msg)) ∧
      (save_markdown (fun _ => "/elsewhere") "/out" "w" exExtracted {}).1.files
        = FileSys.files {} :=
  (c6_prefix_validation (fun _ => "/elsewhere") "/out" "w" "/out/x" exExtracted {}).2.2.1
    (by decide)

/-- C8 counterexample: Python `int(...)` accepts a sign, so a like-count
element whose text is `"-5"` parses successfully and the extracted like
count is `-5`, falsifying `likeCount ≥ 0`. -/
theorem c8_counterexample :
    extract_like_count c8Doc = -5 ∧ extract_like_count c8Doc < 0 := by
  refine ⟨by decide, by decide⟩

/-- C8 (amended): the extracted like count equals the integer parse of the
stripped text of the first element matching the like-count marker whenever
that parse succeeds — including when it yields a negative value — and is
`0` when the element is missing or its text is not a well-formed integer;
`likeCount ≥ 0` therefore holds whenever the parsed value is non-negative
(and in the missing/malformed cases), but not unconditionally. -/
theorem c8_like_count_characterization (soup : Node) :
    ((∃ el, soup.findDesc (Node.isTagClass "span" LIKE_COUNT_CLASS) = some el ∧
        pyParseInt (strTrim el.textContent) = some (extract_like_count soup)) ∨
      extract_like_count soup = 0) ∧
    (∀ el n, soup.findDesc (Node.isTagClass "span" LIKE_COUNT_CLASS) = some el →
      pyParseInt (strTrim el.textContent) = some n → 0 ≤ n →
        0 ≤ extract_like_count soup) ∧
    (soup.findDesc (Node.isTagClass "span" LIKE_COUNT_CLASS) = none →
      extract_like_count soup = 0) := by
  refine ⟨?_, ?_, ?_⟩
  · unfold extract_like_count
    cases hfind : soup.findDesc (Node.isTagClass "span" LIKE_COUNT_CLASS) with
    | none => exact Or.inr rfl
    | some el =>
      cases hp : pyParseInt (strTrim el.textContent) with
      | none => exact Or.inr (by simp [hp])
      | some n => exact Or.inl ⟨el, rfl, by simp [hp]⟩
  · intro el n hfind hp hn
    unfold extract_like_count
    rw [hfind]
    simpa [hp] using hn
  · intro hfind
    unfold extract_like_count
    rw [hfind]

/-- C8 witness: the amended theorem applied at `goodDoc` (no like-count
element: the count is `0`) via its third conjunct. -/
theorem c8_like_count_witness : extract_like_count goodDoc = 0 :=
  (c8_like_count_characterization goodDoc).2.2 rfl

/-- C9: filename sanitization is total — for every date and title, the
Markdown and HTML filenames are exactly `<date>_<title><extension>` passed
through the reserved-character substitution, and the results contain no
character from the reserved set. -/
theorem c9_filename_sanitization_total (date title : String) :
    md_filename date title = sanitizeFilename (date ++ "_" ++ title ++ MARKDOWN_EXTENSION) ∧
    html_filename date title = sanitizeFilename (date ++ "_" ++ title ++ HTML_EXTENSION) ∧
    (md_filename date title).data.all (fun c => !RESERVED_FILENAME_CHARS.contains c) = true ∧
    (html_filename date title).data.all (fun c => !RESERVED_FILENAME_CHARS.contains c) = true := by
  refine ⟨rfl, rfl, ?_, ?_⟩ <;>
  · simp only [md_filename, html_filename, sanitizeFilename, List.all_eq_true, List.mem_map]
    rintro c ⟨a, _, rfl⟩
    by_cases h : RESERVED_FILENAME_CHARS.contains a
    · simp only [h, if_true]
      decide
    · simp only [h, if_false]
      simp_all

/-- C5: cache round-trip.  Storing a document under a URL writes exactly its
serialized form to the key's path, and reading the cache for the same URL
finds that very file (the key derivation is a deterministic function of the
URL and the newest write wins); the external HTML capability is assumed to
be string-faithful (`serialize (parse s) = s`), which holds for the
interface contract the program relies on, so the returned document's
serialized form is byte-for-byte the serialized form of the stored
document. -/
theorem c5_cache_roundtrip {Doc : Type} (serialize : Doc → String) (parse : String → Doc)
    (hfaithful : ∀ s, serialize (parse s) = s)
    (cache_dir : String) (cfs : CacheFiles) (url : String) (doc : Doc) :
    ∃ d, get_cached_soup parse cache_dir (save_cached_soup serialize cache_dir cfs url doc) url
          = some d ∧
        serialize d = serialize doc := by
  refine ⟨parse (serialize doc), ?_, hfaithful _⟩
  unfold get_cached_soup save_cached_soup
  simp

/-- C5 witness: the round-trip theorem applied at a concrete cache state,
URL and document, with the string-document instance of the capability. -/
theorem c5_cache_roundtrip_witness :
    ∃ d, get_cached_soup (fun s => s) "/out/cache"
          (save_cached_soup (fun s => s) "/out/cache" [("/out/cache/x.cache", "old")]
            "https://w.test/p/a" "<p>x</p>")
          "https://w.test/p/a" = some d ∧
        (fun s : String => s) d = (fun s : String => s) "<p>x</p>" :=
  c5_cache_roundtrip (fun s => s) (fun s => s) (fun _ => rfl)
    "/out/cache" [("/out/cache/x.cache", "old")] "https://w.test/p/a" "<p>x</p>"

/-- Helper: an entry with the required keys builds its `Post` without a
`KeyError`. -/
lemma mkPostE_ok {p : JObj} (h : hasRequiredKeys p = true) : mkPostE p = .ok (mkPost p) := by
  simp only [hasRequiredKeys, REQUIRED_POST_KEYS, List.all_cons, List.all_nil,
    Bool.and_true, Bool.and_eq_true] at h
  obtain ⟨h1, h2, h3⟩ := h
  rw [Option.isSome_iff_exists] at h1 h2 h3
  obtain ⟨t, ht⟩ := h1
  obtain ⟨d, hd⟩ := h2
  obtain ⟨lc, hlc⟩ := h3
  unfold mkPostE jgetE mkPost
  rw [ht, hd, hlc]
  rfl

/-- Helper: over entries that all carry the required keys, the `Post`
construction loop succeeds and equals the total map. -/
lemma loadPostsAux_ok {l : List JObj} (h : ∀ p ∈ l, hasRequiredKeys p = true) :
    loadPostsAux l = .ok (l.map mkPost) := by
  induction l with
  | nil => rfl
  | cons p ps ih =>
    have hp := h p (List.mem_cons_self p ps)
    have hps := ih (fun q hq => h q (List.mem_cons_of_mem p hq))
    unfold loadPostsAux
    rw [mkPostE_ok hp, hps]
    rfl

/-- C10: the listing generator's index load keeps exactly the entries that
contain all three keys `title`, `date` and `like_count`: it returns (with
no error) the key-complete entries, mapped to display records and sorted by
date descending, so every entry missing one of those keys is silently
omitted from everything rendered from the loaded posts — dropping such
entries from the input changes nothing. -/
theorem c10_load_posts_requires_keys (data : List JObj) :
    load_posts data = .ok (sortPostsByDateDesc ((data.filter hasRequiredKeys).map mkPost)) ∧
    load_posts (data.filter hasRequiredKeys) = load_posts data := by
  have hfilter : ∀ p ∈ data.filter hasRequiredKeys, hasRequiredKeys p = true :=
    fun p hp => List.of_mem_filter hp
  constructor
  · unfold load_posts
    rw [loadPostsAux_ok hfilter]
  · unfold load_posts
    rw [List.filter_filter]
    simp only [Bool.and_self]

/-- Helper: the per-record save steps only touch the output file system;
every other state component is unchanged, whatever the outcome. -/
lemma save_post_files_shape (env : ScrapeEnv) (st : PipeState) (pd : PostData) :
    ∃ fs' r, save_post_files env st pd = ({ st with fs := fs' }, r) := by
  unfold save_post_files
  by_cases h1 : (["both", "md"].contains env.output_mode) = true
  · rcases hsm : save_markdown env.resolve env.output_dir env.writer_name pd st.fs with ⟨fs1, r1⟩
    simp only [h1, if_true, hsm]
    cases r1 with
    | error e => exact ⟨fs1, .error e, rfl⟩
    | ok pd' =>
      by_cases h2 : (["both", "html"].contains env.output_mode) = true
      · rcases hsh : save_html env.resolve env.output_dir env.writer_name pd' fs1 with ⟨fs2, r2⟩
        simp only [h2, if_true, hsh]
        exact ⟨fs2, r2, rfl⟩
      · rw [Bool.not_eq_true] at h2
        simp only [h2, Bool.false_eq_true, if_false]
        exact ⟨fs1, .ok pd', rfl⟩
  · rw [Bool.not_eq_true] at h1
    simp only [h1, Bool.false_eq_true, if_false]
    by_cases h2 : (["both", "html"].contains env.output_mode) = true
    · rcases hsh : save_html env.resolve env.output_dir env.writer_name pd st.fs with ⟨fs2, r2⟩
      simp only [h2, if_true, hsh]
      exact ⟨fs2, r2, rfl⟩
    · rw [Bool.not_eq_true] at h2
      simp only [h2, Bool.false_eq_true, if_false]
      exact ⟨st.fs, .ok pd, rfl⟩

/-- Helper: `save_markdown` raises only `FileSystemError`. -/
lemma save_markdown_error_shape {resolve : String → String} {root w : String}
    {pd : PostData} {fs fs' : FileSys} {e : PErr}
    (h : save_markdown resolve root w pd fs = (fs', .error e)) : ∃ m, e = .fileSystem m := by
  simp only [save_markdown] at h
  split at h
  · injection h with h1 h2
    injection h2 with h3
    exact ⟨_, h3.symm⟩
  · injection h with h1 h2
    simp at h2

/-- Helper: `save_html` raises only `FileSystemError`. -/
lemma save_html_error_shape {resolve : String → String} {root w : String}
    {pd : PostData} {fs fs' : FileSys} {e : PErr}
    (h : save_html resolve root w pd fs = (fs', .error e)) : ∃ m, e = .fileSystem m := by
  simp only [save_html] at h
  split at h
  · injection h with h1 h2
    injection h2 with h3
    exact ⟨_, h3.symm⟩
  · injection h with h1 h2
    simp at h2

/-- Helper: the save steps raise only `FileSystemError`. -/
lemma save_post_files_error_shape {env : ScrapeEnv} {st : PipeState} {pd : PostData}
    {st' : PipeState} {e : PErr} (h : save_post_files env st pd = (st', .error e)) :
    ∃ m, e = .fileSystem m := by
  unfold save_post_files at h
  by_cases h1 : (["both", "md"].contains env.output_mode) = true
  · rcases hsm : save_markdown env.resolve env.output_dir env.writer_name pd st.fs with ⟨fs1, r1⟩
    simp only [h1, if_true, hsm] at h
    cases r1 with
    | error e1 =>
      injection h with ha hb
      injection hb with hc
      exact hc ▸ save_markdown_error_shape hsm
    | ok pd' =>
      by_cases h2 : (["both", "html"].contains env.output_mode) = true
      · rcases hsh : save_html env.resolve env.output_dir env.writer_name pd' fs1 with ⟨fs2, r2⟩
        simp only [h2, if_true, hsh] at h
        cases r2 with
        | error e2 =>
          injection h with ha hb
          injection hb with hc
          exact hc ▸ save_html_error_shape hsh
        | ok pd'' =>
          injection h with ha hb
          simp at hb
      · rw [Bool.not_eq_true] at h2
        simp only [h2, Bool.false_eq_true, if_false] at h
        injection h with ha hb
        simp at hb
  · rw [Bool.not_eq_true] at h1
    simp only [h1, Bool.false_eq_true, if_false] at h
    by_cases h2 : (["both", "html"].contains env.output_mode) = true
    · rcases hsh : save_html env.resolve env.output_dir env.writer_name pd st.fs with ⟨fs2, r2⟩
      simp only [h2, if_true, hsh] at h
      cases r2 with
      | error e2 =>
        injection h with ha hb
        injection hb with hc
        exact hc ▸ save_html_error_shape hsh
      | ok pd'' =>
        injection h with ha hb
        simp at hb
    · rw [Bool.not_eq_true] at h2
      simp only [h2, Bool.false_eq_true, if_false] at h
      injection h with ha hb
      simp at hb

/-- Helper: `extract_post_data` raises only `ContentError`. -/
lemma extract_post_data_error_shape {soup : Node} {e : PErr}
    (h : extract_post_data soup = .error e) : ∃ m, e = .content m := by
  unfold extract_post_data at h
  split at h
  · injection h with h1
    exact ⟨_, h1.symm⟩
  · simp at h

/-- Helper: extraction and saving never touch the parsed data files. -/
lemma process_soup_dataFiles (env : ScrapeEnv) (st : PipeState) (soup : Node) :
    (process_soup env st soup).1.dataFiles = st.dataFiles := by
  unfold process_soup
  split
  · rfl
  · obtain ⟨fs', r, heq⟩ := save_post_files_shape env st _
    rw [heq]
    cases r <;> rfl

/-- Helper: `process_soup` raises only `ContentError` or `FileSystemError`. -/
lemma process_soup_error_shape {env : ScrapeEnv} {st : PipeState} {soup : Node}
    {st' : PipeState} {e : PErr} (h : process_soup env st soup = (st', .error e)) :
    (∃ m, e = .content m) ∨ (∃ m, e = .fileSystem m) := by
  unfold process_soup at h
  split at h
  · injection h with h1 h2
    injection h2 with h3
    subst h3
    exact Or.inl (extract_post_data_error_shape (by assumption))
  · rcases hs : save_post_files env st _ with ⟨st1, r⟩
    rw [hs] at h
    cases r with
    | error e1 =>
      injection h with h1 h2
      injection h2 with h3
      subst h3
      exact Or.inr (save_post_files_error_shape hs)
    | ok pd' =>
      injection h with h1 h2
      simp at h2

/-- Helper: processing one URL never touches the parsed data files (the
index is only written at end of run). -/
lemma process_single_url_dataFiles (env : ScrapeEnv) (st : PipeState) (url : String) :
    (process_single_url env st url).1.dataFiles = st.dataFiles := by
  unfold process_single_url
  by_cases hc : (st.processed_urls.contains url) = true
  · simp only [hc, if_true]
  · rw [Bool.not_eq_true] at hc
    simp only [hc, Bool.false_eq_true, if_false]
    split
    · exact process_soup_dataFiles env st _
    · rcases hf : env.fetch url with ⟨s, b⟩
      simp only [hf]
      split
      · rfl
      · exact process_soup_dataFiles env _ _
  
/-- Helper: `_process_single_url` re-raises only non-network errors:
a `NetworkError` is always caught inside it. -/
lemma process_single_url_error_shape {env : ScrapeEnv} {st : PipeState} {url : String}
    {st' : PipeState} {e : PErr} (h : process_single_url env st url = (st', .error e)) :
    (∃ m, e = .content m) ∨ (∃ m, e = .fileSystem m) := by
  unfold process_single_url at h
  by_cases hc : (st.processed_urls.contains url) = true
  · simp only [hc, if_true] at h
    injection h with h1 h2
    simp at h2
  · rw [Bool.not_eq_true] at hc
    simp only [hc, Bool.false_eq_true, if_false] at h
    split at h
    · exact process_soup_error_shape h
    · rcases hf : env.fetch url with ⟨s, b⟩
      simp only [hf] at h
      split at h
      · injection h with h1 h2
        simp at h2
      · exact process_soup_error_shape h

/-- Helper: the collection loop never touches the parsed data files. -/
lemma scrape_posts_loop_dataFiles (env : ScrapeEnv) (urls : List String) :
    ∀ (st : PipeState) (acc : List PostData),
      (scrape_posts_loop env st urls acc).1.dataFiles = st.dataFiles := by
  induction urls with
  | nil => intro st acc; rfl
  | cons u rest ih =>
    intro st acc
    unfold scrape_posts_loop
    rcases hp : process_single_url env st u with ⟨st1, r⟩
    have hdf := process_single_url_dataFiles env st u
    rw [hp] at hdf
    cases r with
    | ok opd =>
      cases opd with
      | none => rw [ih st1 acc] at *; exact hdf
      | some pd => rw [ih st1 (acc ++ [pd])] at *; exact hdf
    | error e => exact hdf

/-- Helper: an error escaping the collection loop is a content or
file-system error, never a network error. -/
lemma scrape_posts_loop_error_shape (env : ScrapeEnv) (urls : List String) :
    ∀ (st : PipeState) (acc : List PostData) (st' : PipeState) (e : PErr),
      scrape_posts_loop env st urls acc = (st', .error e) →
      (∃ m, e = .content m) ∨ (∃ m, e = .fileSystem m) := by
  induction urls with
  | nil =>
    intro st acc st' e h
    injection h with h1 h2
    simp at h2
  | cons u rest ih =>
    intro st acc st' e h
    unfold scrape_posts_loop at h
    rcases hp : process_single_url env st u with ⟨st1, r⟩
    rw [hp] at h
    cases r with
    | ok opd => cases opd <;> exact ih st1 _ st' e h
    | error e1 =>
      injection h with h1 h2
      injection h2 with h3
      subst h3
      exact process_single_url_error_shape hp

/-- Helper: the index save raises only `FileSystemError`. -/
lemma save_essays_error_shape {resolve : String → String} {root w : String}
    {dfs : DataFiles} {essays : List PostData} {e : PErr}
    (h : save_essays_data_to_json resolve root w dfs essays = .error e) :
    ∃ m, e = .fileSystem m := by
  simp only [save_essays_data_to_json] at h
  split at h
  · injection h with h1
    exact ⟨_, h1.symm⟩
  · simp at h

/-- C1 counterexample: a run over two URLs in which the first URL's page
has no content container.  Extraction raises `ContentError`, which
`_process_single_url` re-raises; the `asyncio.as_completed` collection loop
in `scrape_posts` has no per-task handler, so the run aborts with that
error: the second URL — which on its own produces a record — contributes
nothing, and no record of any URL is merged into the index, falsifying
"the remaining URLs are still processed and the run completes, appending
the records of all other successful URLs". -/
theorem c1_counterexample :
    (scrape_posts exEnv {} ["ubad", "ugood"]).2 =
        .error (.content "Failed to extract post data: Could not find main content div") ∧
    (scrape_posts exEnv {} ["ubad", "ugood"]).1.dataFiles = [] ∧
    (scrape_posts exEnv {} ["ugood"]).2 = .ok [exRecord] := by
  refine ⟨by decide, by decide, by decide⟩

/-- C1 (amended): an exception other than `NetworkError` raised while
processing one URL propagates out of the result-collection loop of
`scrape_posts` and aborts the run before the index merge: whenever a run
ends in an error, the parsed data files are exactly as before the run (no
record of any URL, successful or not, was appended), and the escaping
error is never a `NetworkError` (those are caught per URL and degrade to
"no record"). -/
theorem c1_nonnetwork_error_aborts_run (env : ScrapeEnv) (st : PipeState)
    (urls : List String) (st' : PipeState) (e : PErr)
    (h : scrape_posts env st urls = (st', .error e)) :
    st'.dataFiles = st.dataFiles ∧ ∀ m, e ≠ PErr.network m := by
  unfold scrape_posts at h
  rcases hl : scrape_posts_loop env st urls [] with ⟨st1, r⟩
  rw [hl] at h
  have hdf := scrape_posts_loop_dataFiles env urls st []
  rw [hl] at hdf
  cases r with
  | error e1 =>
    injection h with h1 h2
    injection h2 with h3
    subst h1
    subst h3
    refine ⟨hdf, ?_⟩
    intro m hm
    rcases scrape_posts_loop_error_shape env urls st [] st1 e1 hl with ⟨m1, hc⟩ | ⟨m1, hc⟩ <;>
      simp [hm] at hc
  | ok essays =>
    dsimp only [] at h
    rcases hs : save_essays_data_to_json env.resolve env.output_dir env.writer_name
        st1.dataFiles essays with e1 | dfs'
    · rw [hs] at h
      dsimp only [] at h
      injection h with h1 h2
      injection h2 with h3
      subst h1
      subst h3
      refine ⟨hdf, ?_⟩
      intro m hm
      obtain ⟨m1, hc⟩ := save_essays_error_shape hs
      simp [hm] at hc
    · rw [hs] at h
      dsimp only [] at h
      injection h with h1 h2
      simp at h2

/-- C1 witness: the amended theorem applied to the concrete aborting run of
the counterexample environment. -/
theorem c1_abort_witness :
    exBadState.dataFiles = PipeState.dataFiles {} ∧
    ∀ m, (PErr.content "Failed to extract post data: Could not find main content div")
        ≠ PErr.network m :=
  c1_nonnetwork_error_aborts_run exEnv {} ["ubad"] exBadState
    (.content "Failed to extract post data: Could not find main content div") (by rfl)

/-- Helper: validation succeeds on targets whose resolved path has the root
as prefix. -/
lemma validate_path_ok {resolve : String → String} {root p : String}
    (h : strStartsWith (resolve p) root = true) :
    validate_path resolve root p = .ok () := by
  simp [validate_path, h]

/-- Helper: `save_markdown` under a passing validation writes the post file
and records the link. -/
lemma save_markdown_ok (resolve : String → String) (root w : String) (pd : PostData)
    (fs : FileSys) (h : strStartsWith (resolve (md_author_dir root w)) root = true) :
    save_markdown resolve root w pd fs =
      ((fs.mkdirFS (md_author_dir root w)).writeFileFS
          (md_author_dir root w ++ "/" ++ md_filename pd.date pd.title) (markdownBody pd),
        .ok { pd with
          file_link := some ("substack_md_files/" ++ w ++ "/" ++ md_filename pd.date pd.title) }) := by
  simp only [save_markdown, validate_path, h, if_true]

/-- Helper: `save_html` under a passing validation writes the post file and
records the link. -/
lemma save_html_ok (resolve : String → String) (root w : String) (pd : PostData)
    (fs : FileSys) (h : strStartsWith (resolve (html_author_dir root w)) root = true) :
    save_html resolve root w pd fs =
      ((fs.mkdirFS (html_author_dir root w)).writeFileFS
          (html_author_dir root w ++ "/" ++ html_filename pd.date pd.title) (htmlBody pd),
        .ok { pd with
          html_link := some ("substack_html_pages/" ++ w ++ "/" ++ html_filename pd.date pd.title) }) := by
  simp only [save_html, validate_path, h, if_true]

/-- Helper: with both author directories validating, the save steps
succeed. -/
lemma save_post_files_ok (env : ScrapeEnv) (st : PipeState) (pd : PostData)
    (hmd : strStartsWith (env.resolve (md_author_dir env.output_dir env.writer_name))
      env.output_dir = true)
    (hhtml : strStartsWith (env.resolve (html_author_dir env.output_dir env.writer_name))
      env.output_dir = true) :
    ∃ fs' pd', save_post_files env st pd = ({ st with fs := fs' }, .ok pd') := by
  unfold save_post_files
  by_cases hm : (["both", "md"].contains env.output_mode) = true
  · rw [save_markdown_ok env.resolve env.output_dir env.writer_name pd st.fs hmd]
    simp only [hm, if_true]
    by_cases hh : (["both", "html"].contains env.output_mode) = true
    · rw [save_html_ok env.resolve env.output_dir env.writer_name _ _ hhtml]
      simp only [hh, if_true]
      exact ⟨_, _, rfl⟩
    · rw [Bool.not_eq_true] at hh
      simp only [hh, Bool.false_eq_true, if_false]
      exact ⟨_, _, rfl⟩
  · rw [Bool.not_eq_true] at hm
    simp only [hm, Bool.false_eq_true, if_false]
    by_cases hh : (["both", "html"].contains env.output_mode) = true
    · rw [save_html_ok env.resolve env.output_dir env.writer_name pd st.fs hhtml]
      simp only [hh, if_true]
      exact ⟨_, _, rfl⟩
    · rw [Bool.not_eq_true] at hh
      simp only [hh, Bool.false_eq_true, if_false]
      exact ⟨st.fs, pd, rfl⟩

/-- Helper: a URL whose fetch returns a non-200 status yields `None` — the
`NetworkError` is caught — leaving only the fetch-log entry behind. -/
lemma process_single_url_non200 (env : ScrapeEnv) (st : PipeState) (url : String)
    (hdup : st.processed_urls.contains url = false)
    (hcache : get_cached_soup env.parseHTML (env.output_dir ++ "/cache") st.cacheFiles url = none)
    (hstatus : (env.fetch url).1 ≠ 200) :
    process_single_url env st url = ({ st with fetchLog := st.fetchLog ++ [url] }, .ok none) := by
  unfold process_single_url
  simp only [hdup, Bool.false_eq_true, if_false, hcache]
  rcases hf : env.fetch url with ⟨s, b⟩
  rw [hf] at hstatus
  simp only [hf]
  simp only [if_pos hstatus]

/-- Helper: a URL whose fetch returns 200 with extractable content is
cached, extracted and saved, and yields a record. -/
lemma process_single_url_200 (env : ScrapeEnv) (st : PipeState) (url : String) (pd : PostData)
    (hdup : st.processed_urls.contains url = false)
    (hcache : get_cached_soup env.parseHTML (env.output_dir ++ "/cache") st.cacheFiles url = none)
    (hstatus : (env.fetch url).1 = 200)
    (hex : extract_post_data (env.parseHTML (env.fetch url).2) = .ok pd)
    (hmd : strStartsWith (env.resolve (md_author_dir env.output_dir env.writer_name))
      env.output_dir = true)
    (hhtml : strStartsWith (env.resolve (html_author_dir env.output_dir env.writer_name))
      env.output_dir = true) :
    ∃ fs' pd',
      process_single_url env st url =
        ({ st with
            cacheFiles := save_cached_soup Node.serialize (env.output_dir ++ "/cache")
              st.cacheFiles url (env.parseHTML (env.fetch url).2),
            fs := fs',
            fetchLog := st.fetchLog ++ [url] }, .ok (some pd')) := by
  unfold process_single_url
  simp only [hdup, Bool.false_eq_true, if_false, hcache]
  rcases hf : env.fetch url with ⟨s, b⟩
  rw [hf] at hstatus hex
  dsimp only [] at hstatus hex
  subst hstatus
  simp only [hf]
  simp only [if_neg (by simp : ¬((200 : Nat) ≠ 200))]
  unfold process_soup
  rw [hex]
  dsimp only []
  obtain ⟨fs', pd', hsp⟩ := save_post_files_ok env
    { st with
        cacheFiles := save_cached_soup Node.serialize (env.output_dir ++ "/cache")
          st.cacheFiles url (env.parseHTML b),
        fetchLog := st.fetchLog ++ [url] } pd hmd hhtml
  rw [hsp]
  dsimp only []
  exact ⟨fs', pd', rfl⟩

/-- Helper: the cache path determines the URL (within one cache
directory). -/
lemma cachePath_inj {d a b : String} (h : cachePath d a = cachePath d b) : a = b := by
  unfold cachePath at h
  have hd := congrArg String.data h
  simp only [String.data_append] at hd
  have h2 := List.append_cancel_right hd
  have h3 := List.append_cancel_left h2
  calc a = String.mk a.data := rfl
    _ = String.mk b.data := by rw [h3]
    _ = b := rfl

/-- Helper: the index save succeeds when the index path validates, merging
into the existing array. -/
lemma save_essays_ok {resolve : String → String} {root w : String}
    {dfs : DataFiles} {essays : List PostData}
    (h : strStartsWith (resolve (json_data_path root w)) root = true) :
    save_essays_data_to_json resolve root w dfs essays =
      .ok ((json_data_path root w,
            mergeIndex ((readData dfs (json_data_path root w)).getD []) essays) :: dfs) := by
  simp only [save_essays_data_to_json, validate_path, h, if_true]

/-- C7: in a run over two URLs where one fetch returns HTTP 500 and the
other returns HTTP 200 with extractable content (on a fresh state, with the
output paths validating), the run completes normally with exactly one
record — whichever order the two URLs are processed in.  The failing URL is
fetched exactly once (no retry), raises nothing out of the pipeline, and
yields no record; the other URL's record is the only one collected. -/
theorem c7_http500_isolated (env : ScrapeEnv) (u1 u2 : String)
    (h1 : (env.fetch u1).1 = 500)
    (h2 : (env.fetch u2).1 = 200)
    (hex : ∃ pd, extract_post_data (env.parseHTML (env.fetch u2).2) = .ok pd)
    (hmd : strStartsWith (env.resolve (md_author_dir env.output_dir env.writer_name))
      env.output_dir = true)
    (hhtml : strStartsWith (env.resolve (html_author_dir env.output_dir env.writer_name))
      env.output_dir = true)
    (hjson : strStartsWith (env.resolve (json_data_path env.output_dir env.writer_name))
      env.output_dir = true) :
    (∃ st' pd', scrape_posts env {} [u1, u2] = (st', .ok [pd']) ∧ st'.fetchLog = [u1, u2]) ∧
    (∃ st' pd', scrape_posts env {} [u2, u1] = (st', .ok [pd']) ∧ st'.fetchLog = [u2, u1]) := by
  obtain ⟨pd, hex⟩ := hex
  have hne : u1 ≠ u2 := by
    intro heq
    rw [heq, h2] at h1
    exact absurd h1 (by decide)
  have h500 : (env.fetch u1).1 ≠ 200 := by
    rw [h1]
    decide
  constructor
  · -- order: failing URL first
    have step1 := process_single_url_non200 env {} u1 rfl rfl h500
    obtain ⟨fs', pd', step2⟩ :=
      process_single_url_200 env { ({} : PipeState) with fetchLog := [] ++ [u1] } u2 pd
        rfl rfl h2 hex hmd hhtml
    have hloop : scrape_posts_loop env {} [u1, u2] [] =
        ({ ({} : PipeState) with
            cacheFiles := save_cached_soup Node.serialize (env.output_dir ++ "/cache")
              [] u2 (env.parseHTML (env.fetch u2).2),
            fs := fs',
            fetchLog := ([] ++ [u1]) ++ [u2] }, .ok [pd']) := by
      unfold scrape_posts_loop
      rw [step1]
      unfold scrape_posts_loop
      rw [step2]
      rfl
    have hfin : scrape_posts env {} [u1, u2] =
        ({ ({} : PipeState) with
            cacheFiles := save_cached_soup Node.serialize (env.output_dir ++ "/cache")
              [] u2 (env.parseHTML (env.fetch u2).2),
            fs := fs',
            dataFiles := [(json_data_path env.output_dir env.writer_name,
              mergeIndex ((readData [] (json_data_path env.output_dir env.writer_name)).getD [])
                [pd'])],
            fetchLog := ([] ++ [u1]) ++ [u2] }, .ok [pd']) := by
      unfold scrape_posts
      rw [hloop]
      dsimp only []
      rw [save_essays_ok hjson]
    exact ⟨_, pd', hfin, by simp⟩
  · -- order: succeeding URL first
    obtain ⟨fs', pd', step1⟩ := process_single_url_200 env {} u2 pd rfl rfl h2 hex hmd hhtml
    have hcache2 : get_cached_soup env.parseHTML (env.output_dir ++ "/cache")
        (save_cached_soup Node.serialize (env.output_dir ++ "/cache")
          [] u2 (env.parseHTML (env.fetch u2).2)) u1 = none := by
      unfold get_cached_soup save_cached_soup
      rw [List.find?_cons_of_neg]
      · rfl
      · simp only [decide_eq_true_eq]
        intro hcp
        exact hne (cachePath_inj hcp).symm
    have step2 := process_single_url_non200 env
      { ({} : PipeState) with
          cacheFiles := save_cached_soup Node.serialize (env.output_dir ++ "/cache")
            [] u2 (env.parseHTML (env.fetch u2).2),
          fs := fs',
          fetchLog := [] ++ [u2] } u1 rfl hcache2 h500
    have hloop : scrape_posts_loop env {} [u2, u1] [] =
        ({ ({} : PipeState) with
            cacheFiles := save_cached_soup Node.serialize (env.output_dir ++ "/cache")
              [] u2 (env.parseHTML (env.fetch u2).2),
            fs := fs',
            fetchLog := ([] ++ [u2]) ++ [u1] }, .ok [pd']) := by
      unfold scrape_posts_loop
      rw [step1]
      unfold scrape_posts_loop
      rw [step2]
      rfl
    have hfin : scrape_posts env {} [u2, u1] =
        ({ ({} : PipeState) with
            cacheFiles := save_cached_soup Node.serialize (env.output_dir ++ "/cache")
              [] u2 (env.parseHTML (env.fetch u2).2),
            fs := fs',
            dataFiles := [(json_data_path env.output_dir env.writer_name,
              mergeIndex ((readData [] (json_data_path env.output_dir env.writer_name)).getD [])
                [pd'])],
            fetchLog := ([] ++ [u2]) ++ [u1] }, .ok [pd']) := by
      unfold scrape_posts
      rw [hloop]
      dsimp only []
      rw [save_essays_ok hjson]
    exact ⟨_, pd', hfin, by simp⟩

/-- C7 witness: the theorem applied to the concrete environment, with
`"u500"` served an HTTP 500 and `"ugood"` a valid page. -/
theorem c7_http500_witness :
    (∃ st' pd', scrape_posts exEnv {} ["u500", "ugood"] = (st', .ok [pd']) ∧
        st'.fetchLog = ["u500", "ugood"]) ∧
    (∃ st' pd', scrape_posts exEnv {} ["ugood", "u500"] = (st', .ok [pd']) ∧
        st'.fetchLog = ["ugood", "u500"]) :=
  c7_http500_isolated exEnv "u500" "ugood" rfl rfl ⟨exExtracted, rfl⟩
    (by decide) (by decide) (by decide)
